import Mathlib

/-!
Shallow embedding of the sentinel-monorepo update-detection system.

The runtime half (`useSentinel` React hook: `checkForUpdate`, `patchHistory`,
`performReload`) is embedded from `packages/react` (current source), the
build-time half (`sentinelPlugin`) from the Vite plugin package.  Browser
facilities that the code consults (navigator.onLine, fetch results, service
worker registrations, CacheStorage, Date.now) are passed in as explicit
environment data; React state/refs become explicit record fields.
-/

namespace Sentinel

/-- Outcome of one `fetch(versionFileUrl?t=...)` as `checkForUpdate` observes it:
the fetch (or `res.json()`) threw, the response was not ok, or a manifest was
parsed whose `version` field is the given optional string (`none` when the
field is absent). -/
inductive FetchOutcome where
  | fetchError
  | notOk
  | ok (version : Option String)
deriving DecidableEq

/-- The detector's per-session state: the `SentinelState` React state
(`hasUpdate`, `currentVersion`, `remoteVersion`) together with the
`updateFoundRef` latch ref. -/
structure DetectorState where
  hasUpdate : Bool
  currentVersion : String
  remoteVersion : Option String
  updateFound : Bool
deriving DecidableEq

/-- `typeof __SENTINEL_VERSION__ !== 'undefined' ? __SENTINEL_VERSION__ : 'unknown'`:
the injected build constant when present, else the sentinel string. -/
def initialVersionOf (injected : Option String) : String :=
  injected.getD "unknown"

/-- Initial detector state as set up by `useSentinel`: no update, current
version from the injected constant, no remote version observed, latch clear. -/
def initialState (injected : Option String) : DetectorState :=
  { hasUpdate := false
    currentVersion := initialVersionOf injected
    remoteVersion := none
    updateFound := false }

/-- Observable effects of one `checkForUpdate` invocation: whether a network
fetch was issued, and the version passed to `onUpdateAvailable` when that
callback was invoked. The function itself never throws: every failure path
is swallowed by the early returns or the `catch`. -/
structure CheckEffects where
  fetched : Bool
  callbackInvoked : Option String
deriving DecidableEq

/-- JavaScript truthiness of the parsed `data.version` value: an absent field
or the empty string is falsy. -/
def truthy : Option String → Bool
  | none => false
  | some s => !(s == "")

/-- Embedding of `checkForUpdate` (packages/react). `cbProvided` records
whether an `onUpdateAvailable` callback was supplied; `online` is
`navigator.onLine`. Returns the updated state plus its observable effects:

* offline: return immediately, no fetch, no state change;
* fetch error / non-ok response / falsy `version`: fetch issued, no change;
* truthy `version` differing from `currentVersion` with the latch clear:
  set the latch, set `hasUpdate`, record `remoteVersion`, invoke the callback;
* same situation with the latch already set: return with no change. -/
def checkForUpdate (cbProvided : Bool) (online : Bool) (outcome : FetchOutcome)
    (s : DetectorState) : DetectorState × CheckEffects :=
  if !online then (s, { fetched := false, callbackInvoked := none })
  else
    match outcome with
    | .fetchError => (s, { fetched := true, callbackInvoked := none })
    | .notOk => (s, { fetched := true, callbackInvoked := none })
    | .ok version =>
      match version with
      | none => (s, { fetched := true, callbackInvoked := none })
      | some v =>
        if v ≠ "" ∧ v ≠ s.currentVersion then
          if s.updateFound then (s, { fetched := true, callbackInvoked := none })
          else
            ({ s with updateFound := true, hasUpdate := true, remoteVersion := some v },
             { fetched := true
               callbackInvoked := if cbProvided then some v else none })
        else (s, { fetched := true, callbackInvoked := none })

/-- The `history` object as the patch sees it: the `__sentinelPatched` marker
flag, and how many `sentinel:routechange` dispatches one `pushState` /
`replaceState` call currently causes (each layer of wrapping adds one). -/
structure HistoryState where
  sentinelPatched : Bool
  dispatchPerCall : Nat
deriving DecidableEq

/-- The unpatched browser history: no marker, and a navigation call dispatches
no custom event. -/
def initialHistory : HistoryState :=
  { sentinelPatched := false, dispatchPerCall := 0 }

/-- Embedding of `patchHistory` (packages/react): if `__sentinelPatched` is
already set, do nothing; otherwise wrap `pushState` / `replaceState` so each
call additionally dispatches one `sentinel:routechange` event, and set the
marker. -/
def patchHistory (h : HistoryState) : HistoryState :=
  if h.sentinelPatched then h
  else { sentinelPatched := true, dispatchPerCall := h.dispatchPerCall + 1 }

/-- A query string as a list of key/value pairs, standing for
`URL.searchParams`. -/
structure Url where
  base : String
  params : List (String × String)
deriving DecidableEq

/-- `url.searchParams.set k v`: overwrite the value of every existing entry
with key `k`, or append `(k, v)` when no such entry exists. -/
def Url.setParam (u : Url) (k v : String) : Url :=
  if u.params.any (fun p => p.1 == k) then
    { u with params := u.params.map (fun p => if p.1 == k then (k, v) else p) }
  else { u with params := u.params ++ [(k, v)] }

/-- `url.searchParams.get k`: value of the first entry with key `k`. -/
def Url.getParam (u : Url) (k : String) : Option String :=
  (u.params.find? (fun p => p.1 == k)).map (fun p => p.2)

/-- Decimal digit characters, least significant first (via `Nat.digits 10`). -/
def decimalChars (n : Nat) : List Char :=
  (Nat.digits 10 n).reverse.map (fun d => Char.ofNat (48 + d))

/-- Embedding of JavaScript `n.toString()` for a non-negative integer `n`
(as in `Date.now().toString()`): its decimal string. -/
def natToString (n : Nat) : String :=
  if n = 0 then "0" else String.mk (decimalChars n)

/-- Browser environment consulted by one `performReload` invocation:
connectivity, service-worker support and the registration list returned by
`getRegistrations()` (`none` when that call rejects; each `Bool` is whether
the individual `unregister()` resolves), CacheStorage support and the list
returned by `caches.keys()` (`none` when it rejects; each `Bool` is whether
the individual `caches.delete` resolves), the current location and the
`Date.now()` reading. -/
structure ReloadEnv where
  online : Bool
  swSupported : Bool
  registrations : Option (List Bool)
  cachesSupported : Bool
  cacheKeys : Option (List (String × Bool))
  location : Url
  now : Nat
deriving DecidableEq

/-- Observable effects of one `performReload` invocation: how many
service-worker unregistrations were attempted, how many cache deletions were
attempted, the navigation target assigned to `window.location.href` (if any),
and whether the call threw. -/
structure ReloadEffects where
  unregistrationsAttempted : Nat
  cacheDeletionsAttempted : Nat
  navigatedTo : Option Url
  threw : Bool
deriving DecidableEq

/-- Embedding of `performReload` (packages/react):

1. offline guard: when `navigator.onLine` is false, log and return with no
   side effect at all;
2. when service workers are supported, fetch the registrations and attempt to
   unregister each; a rejection anywhere in the step is caught;
3. when CacheStorage is supported, fetch the cache names and attempt to
   delete each; a rejection anywhere in the step is caught;
4. set the `sentinel_refresh` query parameter of the current URL to
   `Date.now().toString()` and navigate there.

No path throws: steps 2 and 3 are wrapped in try/catch and their failures
never block step 4. -/
def performReload (env : ReloadEnv) : ReloadEffects :=
  if !env.online then
    { unregistrationsAttempted := 0
      cacheDeletionsAttempted := 0
      navigatedTo := none
      threw := false }
  else
    let unreg :=
      if env.swSupported then
        match env.registrations with
        | none => 0
        | some regs => regs.length
      else 0
    let purged :=
      if env.cachesSupported then
        match env.cacheKeys with
        | none => 0
        | some ks => ks.length
      else 0
    { unregistrationsAttempted := unreg
      cacheDeletionsAttempted := purged
      navigatedTo := some (env.location.setParam "sentinel_refresh" (natToString env.now))
      threw := false }

/-- The hook configuration relevant to the state machine: the `silent` flag
and whether an `onUpdateAvailable` callback was supplied. -/
structure Config where
  silent : Bool
  cbProvided : Bool
deriving DecidableEq

/-- One client-side navigation: a `history.pushState` call, a
`history.replaceState` call, or a browser back/forward (`popstate`). -/
inductive NavEvent where
  | push
  | replace
  | popstate
deriving DecidableEq

/-- One event a session reacts to: a check trigger (startup, timer tick,
focus/visibility, online recovery, or `checkNow()`) with the connectivity and
fetch outcome it observes, or a navigation. -/
inductive Event where
  | check (online : Bool) (outcome : FetchOutcome)
  | nav (k : NavEvent)
deriving DecidableEq

/-- A running session: the detector state plus the (page-global) history
object. -/
structure Session where
  detector : DetectorState
  history : HistoryState
deriving DecidableEq

/-- Session setup by `useSentinel`: fresh detector state, and — only in
silent mode — Effect 2 runs `patchHistory()` on the page's history. -/
def startSession (cfg : Config) (injected : Option String) : Session :=
  { detector := initialState injected
    history := if cfg.silent then patchHistory initialHistory else initialHistory }

/-- Observable effects of one session step: those of a check, plus the number
of `performReload` executions that `handleRouteChange` triggered. -/
structure StepEffects where
  fetched : Bool
  callbackInvoked : Option String
  reloads : Nat
deriving DecidableEq

/-- One step of the session state machine. A check event runs
`checkForUpdate`. A navigation event: in silent mode, `handleRouteChange` is
subscribed to `sentinel:routechange` and to `popstate`, so it runs once per
`popstate` and once per custom-event dispatch of a `pushState`/`replaceState`
call (`dispatchPerCall` of the patched history); each run executes
`performReload` exactly when the `updateFoundRef` latch is set. Outside
silent mode Effect 2 returns early, so navigations trigger nothing. -/
def step (cfg : Config) (s : Session) (e : Event) : Session × StepEffects :=
  match e with
  | .check online outcome =>
    let r := checkForUpdate cfg.cbProvided online outcome s.detector
    ({ s with detector := r.1 },
     { fetched := r.2.fetched, callbackInvoked := r.2.callbackInvoked, reloads := 0 })
  | .nav k =>
    if cfg.silent then
      let handlerRuns :=
        match k with
        | .popstate => 1
        | .push => s.history.dispatchPerCall
        | .replace => s.history.dispatchPerCall
      (s, { fetched := false
            callbackInvoked := none
            reloads := if s.detector.updateFound then handlerRuns else 0 })
    else (s, { fetched := false, callbackInvoked := none, reloads := 0 })

/-- Run a session over a list of events, collecting each step's effects. -/
def run (cfg : Config) : Session → List Event → Session × List StepEffects
  | s, [] => (s, [])
  | s, e :: es =>
    let r := step cfg s e
    let rest := run cfg r.1 es
    (rest.1, r.2 :: rest.2)

/-- Number of `onUpdateAvailable` invocations among a list of step effects. -/
def callbackCount (effs : List StepEffects) : Nat :=
  (effs.filterMap (fun eff => eff.callbackInvoked)).length

/-- The build-time output of `sentinelPlugin` for one build: the runtime
value of the injected `__SENTINEL_VERSION__` define, and the record written
to the version file by `writeBundle`. -/
structure PluginBuild where
  defineValue : String
  manifestVersion : String
  manifestTimestamp : Nat
deriving DecidableEq

/-- Embedding of `sentinelPlugin` (vite plugin): `versionHash` is the
12-character hex digest generated once per plugin instantiation, `writeTime`
the `Date.now()` at `writeBundle`. The `config()` hook injects
`__SENTINEL_VERSION__: JSON.stringify(versionHash)` — so the constant's
runtime value is `versionHash` — and `writeBundle` writes
`{ version: versionHash, timestamp: writeTime }`. -/
def sentinelPlugin (versionHash : String) (writeTime : Nat) : PluginBuild :=
  { defineValue := versionHash
    manifestVersion := versionHash
    manifestTimestamp := writeTime }

/-- The guard of the latch block of `checkForUpdate`, as an explicit
function: `some v` exactly when a check invoked with the given connectivity,
fetch outcome and state executes the update-found block with version `v`,
`none` otherwise. -/
def latchTrigger (onl : Bool) (oc : FetchOutcome) (s : DetectorState) : Option String :=
  if !onl then none
  else
    match oc with
    | .ok (some v) =>
      if v ≠ "" ∧ v ≠ s.currentVersion then
        if s.updateFound then none else some v
      else none
    | _ => none

/-! ## Helper lemmas -/

/-- Once the `updateFoundRef` latch is set, `checkForUpdate` never mutates the
state again and never invokes the callback. -/
theorem checkForUpdate_latched (cb onl : Bool) (oc : FetchOutcome) (s : DetectorState)
    (h : s.updateFound = true) :
    (checkForUpdate cb onl oc s).1 = s ∧
      (checkForUpdate cb onl oc s).2.callbackInvoked = none := by
  unfold checkForUpdate
  cases onl with
  | false => simp
  | true =>
    cases oc with
    | fetchError => simp
    | notOk => simp
    | ok version =>
      cases version with
      | none => simp
      | some v =>
        by_cases hv : v ≠ "" ∧ v ≠ s.currentVersion
        · simp [hv, h]
        · simp [hv]

/-- A session step never changes the history object. -/
theorem step_history (cfg : Config) (s : Session) (e : Event) :
    (step cfg s e).1.history = s.history := by
  cases e with
  | check onl oc => rfl
  | nav k =>
    unfold step
    by_cases h : cfg.silent <;> simp [h]

/-- Running any event list never changes the history object. -/
theorem run_history (cfg : Config) (s : Session) (es : List Event) :
    (run cfg s es).1.history = s.history := by
  induction es generalizing s with
  | nil => rfl
  | cons e t ih =>
    show (run cfg (step cfg s e).1 t).1.history = s.history
    rw [ih, step_history]

/-- Once the latch is set, a session step is a no-op for the session state and
never invokes the callback. -/
theorem step_latched (cfg : Config) (s : Session) (e : Event)
    (h : s.detector.updateFound = true) :
    (step cfg s e).1 = s ∧ (step cfg s e).2.callbackInvoked = none := by
  cases e with
  | check onl oc =>
    have hc := checkForUpdate_latched cfg.cbProvided onl oc s.detector h
    exact ⟨by show { s with detector := _ } = s; rw [hc.1], hc.2⟩
  | nav k =>
    unfold step
    by_cases hs : cfg.silent <;> simp [hs]

/-- Once the latch is set, running any further event list leaves the session
unchanged and invokes the callback zero times. -/
theorem run_latched (cfg : Config) (s : Session) (es : List Event)
    (h : s.detector.updateFound = true) :
    (run cfg s es).1 = s ∧ callbackCount (run cfg s es).2 = 0 := by
  induction es with
  | nil => exact ⟨rfl, rfl⟩
  | cons e t ih =>
    have hs := step_latched cfg s e h
    show ((run cfg (step cfg s e).1 t).1 = s ∧
      callbackCount ((step cfg s e).2 :: (run cfg (step cfg s e).1 t).2) = 0)
    rw [hs.1]
    refine ⟨ih.1, ?_⟩
    show (((step cfg s e).2 :: (run cfg s t).2).filterMap
      (fun eff => eff.callbackInvoked)).length = 0
    rw [List.filterMap_cons, hs.2]
    exact ih.2

/-- Mapping a digit below 10 to its character and back via code point 48 is
the identity. -/
theorem digitChar_roundtrip (d : Nat) (hd : d < 10) :
    (Char.ofNat (48 + d)).toNat - 48 = d := by
  interval_cases d <;> rfl

/-- Decoding the decimal string of `n` by digit values recovers `n`. -/
theorem decode_natToString (n : Nat) :
    Nat.ofDigits 10 (((natToString n).data.map (fun c => c.toNat - 48)).reverse) = n := by
  by_cases h0 : n = 0
  · subst h0; rfl
  · unfold natToString decimalChars
    rw [if_neg h0]
    show Nat.ofDigits 10
      ((((Nat.digits 10 n).reverse.map (fun d => Char.ofNat (48 + d))).map
        (fun c => c.toNat - 48)).reverse) = n
    rw [List.map_map]
    have hmap : (Nat.digits 10 n).reverse.map
        ((fun c => c.toNat - 48) ∘ (fun d => Char.ofNat (48 + d)))
        = (Nat.digits 10 n).reverse := by
      have hid : ((Nat.digits 10 n).reverse.map
          ((fun c => c.toNat - 48) ∘ (fun d => Char.ofNat (48 + d))))
          = (Nat.digits 10 n).reverse.map id := by
        apply List.map_congr_left
        intro d hd
        rw [List.mem_reverse] at hd
        exact digitChar_roundtrip d (Nat.digits_lt_base (by norm_num) hd)
      rw [hid, List.map_id]
    rw [hmap, List.reverse_reverse, Nat.ofDigits_digits]

/-- The decimal-string embedding of `Date.now().toString()` is injective:
distinct timestamps give distinct strings. -/
theorem natToString_injective : Function.Injective natToString := by
  intro a b h
  have ha := decode_natToString a
  have hb := decode_natToString b
  rw [h] at ha
  rw [hb] at ha
  exact ha.symm

/-- `find?` over a list rewritten by `searchParams.set` semantics finds the
new value whenever some entry already had the key. -/
theorem find?_overwrite (l : List (String × String)) (k v : String)
    (h : l.any (fun p => p.1 == k) = true) :
    (l.map (fun p => if p.1 == k then (k, v) else p)).find? (fun p => p.1 == k)
      = some (k, v) := by
  induction l with
  | nil => simp at h
  | cons a t ih =>
    by_cases ha : a.1 == k
    · simp only [List.map_cons, if_pos ha, List.find?_cons]
      have : ((k, v).1 == k) = true := by simp
      simp [this]
    · simp only [List.map_cons, if_neg ha, List.find?_cons]
      have hb : (a.1 == k) = false := by
        simpa using ha
      simp only [hb, cond_false]
      apply ih
      simp only [List.any_cons, hb, Bool.false_or] at h
      exact h

/-- `find?` skips every non-matching entry and finds an appended match. -/
theorem find?_appended (l : List (String × String)) (k v : String)
    (h : l.any (fun p => p.1 == k) = false) :
    (l ++ [(k, v)]).find? (fun p => p.1 == k) = some (k, v) := by
  induction l with
  | nil => simp
  | cons a t ih =>
    simp only [List.any_cons, Bool.or_eq_false_iff] at h
    simp only [List.cons_append, List.find?_cons, h.1, cond_false]
    exact ih h.2

/-- After `searchParams.set k v`, reading parameter `k` yields `v`. -/
theorem getParam_setParam (u : Url) (k v : String) :
    (u.setParam k v).getParam k = some v := by
  unfold Url.setParam Url.getParam
  by_cases h : u.params.any (fun p => p.1 == k) = true
  · rw [if_pos h]
    show Option.map (fun p => p.2)
      ((u.params.map (fun p => if p.1 == k then (k, v) else p)).find?
        (fun p => p.1 == k)) = some v
    rw [find?_overwrite u.params k v h]
    rfl
  · have hf : u.params.any (fun p => p.1 == k) = false := Bool.eq_false_iff.mpr h
    rw [if_neg h]
    show Option.map (fun p => p.2)
      ((u.params ++ [(k, v)]).find? (fun p => p.1 == k)) = some v
    rw [find?_appended u.params k v hf]
    rfl

/-! ## Claim theorems -/

/-- C3: wrapping the programmatic navigation entry points is idempotent per
page lifetime — `patchHistory` applied twice equals `patchHistory` applied
once, applying it any positive number of times to the unpatched history
equals applying it once, and afterwards each `pushState` / `replaceState`
call dispatches exactly one custom route-change event. -/
theorem patchHistory_idempotent (n : Nat) (h : HistoryState) :
    patchHistory (patchHistory h) = patchHistory h ∧
    patchHistory^[n + 1] initialHistory = patchHistory initialHistory ∧
    (patchHistory^[n + 1] initialHistory).dispatchPerCall = 1 := by
  have hidem : ∀ g : HistoryState, patchHistory (patchHistory g) = patchHistory g := by
    intro g
    unfold patchHistory
    by_cases hg : g.sentinelPatched = true
    · simp [hg]
    · simp [hg]
  have hiter : patchHistory^[n + 1] initialHistory = patchHistory initialHistory := by
    induction n with
    | zero => rfl
    | succ m ih =>
      rw [Function.iterate_succ_apply', ih, hidem]
  exact ⟨hidem h, hiter, by rw [hiter]; rfl⟩

/-- C4: for every build, the runtime value of the injected
`__SENTINEL_VERSION__` define equals the `version` field of that build's
written `version.json` record — both are the one `versionHash` generated at
plugin instantiation. -/
theorem plugin_define_eq_manifest_version (versionHash : String) (writeTime : Nat) :
    (sentinelPlugin versionHash writeTime).defineValue
      = (sentinelPlugin versionHash writeTime).manifestVersion := rfl

/-- C6: a check invoked while the session is offline performs no fetch,
invokes no callback, and leaves the detector state entirely unchanged. -/
theorem checkForUpdate_offline (cb : Bool) (oc : FetchOutcome) (s : DetectorState) :
    checkForUpdate cb false oc s = (s, { fetched := false, callbackInvoked := none }) := rfl

/-- C7: a check whose fetch errors, whose response is not ok, or whose
manifest lacks a `version` field aborts silently — the fetch happened, but
the state is unchanged, the latch is untouched, and the callback is not
invoked (and the embedding is a total function: nothing propagates). -/
theorem checkForUpdate_transient (cb : Bool) (oc : FetchOutcome) (s : DetectorState)
    (h : oc = FetchOutcome.fetchError ∨ oc = FetchOutcome.notOk ∨
      oc = FetchOutcome.ok none) :
    checkForUpdate cb true oc s = (s, { fetched := true, callbackInvoked := none }) := by
  rcases h with h | h | h <;> subst h <;> rfl

/-- Witness for C7 at a concrete non-ok response and a concrete state. -/
theorem checkForUpdate_transient_witness :
    checkForUpdate true true FetchOutcome.notOk (initialState (some "abc123def456"))
      = (initialState (some "abc123def456"),
         { fetched := true, callbackInvoked := none }) :=
  checkForUpdate_transient true FetchOutcome.notOk (initialState (some "abc123def456"))
    (Or.inr (Or.inl rfl))

/-- C8: the reload sequence invoked while offline aborts before any side
effect — zero unregistration attempts, zero cache deletions, no navigation,
and no exception. -/
theorem performReload_offline (sw : Bool) (regs : Option (List Bool)) (cs : Bool)
    (ks : Option (List (String × Bool))) (u : Url) (t : Nat) :
    performReload
      { online := false, swSupported := sw, registrations := regs,
        cachesSupported := cs, cacheKeys := ks, location := u, now := t }
      = { unregistrationsAttempted := 0, cacheDeletionsAttempted := 0,
          navigatedTo := none, threw := false } := rfl

/-- C1: the update-found transition is latched. A check that observes a
truthy manifest version differing from `currentVersion` while the latch is
clear sets the latch, sets `remoteVersion` to that version, flips
`hasUpdate` from false to true, and invokes `onUpdateAvailable` with that
version exactly when the callback was provided; over any further events of
the session, `hasUpdate` stays true and the callback fires zero more times. -/
theorem update_latch_once (cfg : Config) (s : Session) (v : String) (rest : List Event)
    (hlatch : s.detector.updateFound = false)
    (_hupd : s.detector.hasUpdate = false)
    (hv : v ≠ "") (hne : v ≠ s.detector.currentVersion) :
    (step cfg s (Event.check true (FetchOutcome.ok (some v)))).1.detector.hasUpdate = true ∧
    (step cfg s (Event.check true (FetchOutcome.ok (some v)))).1.detector.updateFound = true ∧
    (step cfg s (Event.check true (FetchOutcome.ok (some v)))).1.detector.remoteVersion
      = some v ∧
    (step cfg s (Event.check true (FetchOutcome.ok (some v)))).2.callbackInvoked
      = (if cfg.cbProvided then some v else none) ∧
    (run cfg (step cfg s (Event.check true (FetchOutcome.ok (some v)))).1 rest).1.detector.hasUpdate
      = true ∧
    callbackCount
      (run cfg (step cfg s (Event.check true (FetchOutcome.ok (some v)))).1 rest).2 = 0 := by
  have hcheck : checkForUpdate cfg.cbProvided true (FetchOutcome.ok (some v)) s.detector
      = ({ s.detector with updateFound := true, hasUpdate := true, remoteVersion := some v },
         { fetched := true
           callbackInvoked := if cfg.cbProvided then some v else none }) := by
    unfold checkForUpdate
    rw [if_neg (by simp)]
    show (if v ≠ "" ∧ v ≠ s.detector.currentVersion then _ else _) = _
    rw [if_pos ⟨hv, hne⟩, if_neg (by rw [hlatch]; exact Bool.false_ne_true)]
  have hstep : step cfg s (Event.check true (FetchOutcome.ok (some v)))
      = ({ s with detector :=
            { s.detector with updateFound := true, hasUpdate := true, remoteVersion := some v } },
         { fetched := true
           callbackInvoked := if cfg.cbProvided then some v else none
           reloads := 0 }) := by
    show ({ s with detector := (checkForUpdate _ _ _ s.detector).1 }, _) = _
    rw [hcheck]
  rw [hstep]
  have hrun := run_latched cfg
    ({ s with detector :=
        { s.detector with updateFound := true, hasUpdate := true, remoteVersion := some v } })
    rest rfl
  refine ⟨rfl, rfl, rfl, rfl, ?_, hrun.2⟩
  rw [hrun.1]

/-- Witness for C1: the spec's test vector — `currentVersion = "A"`, a check
observing version `"B"` latches with the callback invoked, and three further
checks observing `"B"` or `"C"` invoke the callback zero more times while
`hasUpdate` stays true. -/
theorem update_latch_once_witness :
    (step { silent := false, cbProvided := true }
        (startSession { silent := false, cbProvided := true } (some "A"))
        (Event.check true (FetchOutcome.ok (some "B")))).1.detector.hasUpdate = true ∧
    (step { silent := false, cbProvided := true }
        (startSession { silent := false, cbProvided := true } (some "A"))
        (Event.check true (FetchOutcome.ok (some "B")))).1.detector.updateFound = true ∧
    (step { silent := false, cbProvided := true }
        (startSession { silent := false, cbProvided := true } (some "A"))
        (Event.check true (FetchOutcome.ok (some "B")))).1.detector.remoteVersion
      = some "B" ∧
    (step { silent := false, cbProvided := true }
        (startSession { silent := false, cbProvided := true } (some "A"))
        (Event.check true (FetchOutcome.ok (some "B")))).2.callbackInvoked
      = (if ({ silent := false, cbProvided := true } : Config).cbProvided
          then some "B" else none) ∧
    (run { silent := false, cbProvided := true }
        (step { silent := false, cbProvided := true }
          (startSession { silent := false, cbProvided := true } (some "A"))
          (Event.check true (FetchOutcome.ok (some "B")))).1
        [Event.check true (FetchOutcome.ok (some "B")),
         Event.check true (FetchOutcome.ok (some "C")),
         Event.check true (FetchOutcome.ok (some "B"))]).1.detector.hasUpdate = true ∧
    callbackCount
      (run { silent := false, cbProvided := true }
        (step { silent := false, cbProvided := true }
          (startSession { silent := false, cbProvided := true } (some "A"))
          (Event.check true (FetchOutcome.ok (some "B")))).1
        [Event.check true (FetchOutcome.ok (some "B")),
         Event.check true (FetchOutcome.ok (some "C")),
         Event.check true (FetchOutcome.ok (some "B"))]).2 = 0 :=
  update_latch_once { silent := false, cbProvided := true }
    (startSession { silent := false, cbProvided := true } (some "A")) "B"
    [Event.check true (FetchOutcome.ok (some "B")),
     Event.check true (FetchOutcome.ok (some "C")),
     Event.check true (FetchOutcome.ok (some "B"))]
    rfl rfl (by decide) (by decide)

/-- C2: in silent mode, at any reachable session state, a navigation event
(`pushState`, `replaceState`, or back/forward) triggers the reload sequence
exactly once when the latch is set, and triggers zero reloads — with the
session state untouched — when the latch is clear. -/
theorem silent_nav_reaction (cfg : Config) (injected : Option String)
    (evts : List Event) (k : NavEvent)
    (hsilent : cfg.silent = true) :
    (step cfg (run cfg (startSession cfg injected) evts).1 (Event.nav k)).2.reloads
      = (if (run cfg (startSession cfg injected) evts).1.detector.updateFound
          then 1 else 0) ∧
    (step cfg (run cfg (startSession cfg injected) evts).1 (Event.nav k)).1
      = (run cfg (startSession cfg injected) evts).1 := by
  have hhist : (run cfg (startSession cfg injected) evts).1.history.dispatchPerCall = 1 := by
    rw [run_history]
    unfold startSession
    rw [hsilent]
    rfl
  refine ⟨?_, ?_⟩ <;> cases k <;> simp [step, hsilent, hhist]

/-- Witness for C2: a silent session that has latched (after observing
version `"B"` against `"A"`) reloads exactly once on a `pushState`
navigation, and the identical session before any check reloads zero times. -/
theorem silent_nav_reaction_witness :
    (step { silent := true, cbProvided := false }
        (run { silent := true, cbProvided := false }
          (startSession { silent := true, cbProvided := false } (some "A"))
          [Event.check true (FetchOutcome.ok (some "B"))]).1
        (Event.nav NavEvent.push)).2.reloads
      = (if (run { silent := true, cbProvided := false }
            (startSession { silent := true, cbProvided := false } (some "A"))
            [Event.check true (FetchOutcome.ok (some "B"))]).1.detector.updateFound
          then 1 else 0) ∧
    (step { silent := true, cbProvided := false }
        (run { silent := true, cbProvided := false }
          (startSession { silent := true, cbProvided := false } (some "A"))
          [Event.check true (FetchOutcome.ok (some "B"))]).1
        (Event.nav NavEvent.push)).1
      = (run { silent := true, cbProvided := false }
          (startSession { silent := true, cbProvided := false } (some "A"))
          [Event.check true (FetchOutcome.ok (some "B"))]).1 :=
  silent_nav_reaction { silent := true, cbProvided := false } (some "A")
    [Event.check true (FetchOutcome.ok (some "B"))] NavEvent.push rfl

/-- C9: the reload sequence while online is best-effort and cache-busting.
For any two online environments — including ones where fetching the
registrations or the cache names rejects (`none`) or individual
unregistrations/deletions fail — neither invocation throws, both end in a
navigation, each navigation URL carries a `sentinel_refresh` parameter equal
to the invocation's `Date.now()` reading, and when the two readings are at
least 1 ms apart the two parameter values differ. -/
theorem performReload_online_best_effort (env₁ env₂ : ReloadEnv)
    (h₁ : env₁.online = true) (h₂ : env₂.online = true)
    (hlt : env₁.now < env₂.now) :
    (performReload env₁).threw = false ∧
    (performReload env₂).threw = false ∧
    ∃ u₁ u₂ : Url,
      (performReload env₁).navigatedTo = some u₁ ∧
      (performReload env₂).navigatedTo = some u₂ ∧
      u₁.getParam "sentinel_refresh" = some (natToString env₁.now) ∧
      u₂.getParam "sentinel_refresh" = some (natToString env₂.now) ∧
      u₁.getParam "sentinel_refresh" ≠ u₂.getParam "sentinel_refresh" := by
  have hnav : ∀ env : ReloadEnv, env.online = true →
      (performReload env).navigatedTo
        = some (env.location.setParam "sentinel_refresh" (natToString env.now)) ∧
      (performReload env).threw = false := by
    intro env h
    unfold performReload
    rw [h]
    exact ⟨rfl, rfl⟩
  refine ⟨(hnav env₁ h₁).2, (hnav env₂ h₂).2,
    env₁.location.setParam "sentinel_refresh" (natToString env₁.now),
    env₂.location.setParam "sentinel_refresh" (natToString env₂.now),
    (hnav env₁ h₁).1, (hnav env₂ h₂).1,
    getParam_setParam _ _ _, getParam_setParam _ _ _, ?_⟩
  rw [getParam_setParam, getParam_setParam]
  intro heq
  have hv : natToString env₁.now = natToString env₂.now := Option.some.inj heq
  exact absurd (natToString_injective hv) (Nat.ne_of_lt hlt)

/-- Witness for C9 at two concrete online environments 1 ms apart, both with
rejecting registration and cache-name fetches. -/
theorem performReload_online_best_effort_witness :
    (performReload
      { online := true, swSupported := true, registrations := none,
        cachesSupported := true, cacheKeys := none,
        location := { base := "https://app.example/", params := [] },
        now := 1000 }).threw = false ∧
    (performReload
      { online := true, swSupported := true, registrations := none,
        cachesSupported := true, cacheKeys := none,
        location := { base := "https://app.example/", params := [] },
        now := 1001 }).threw = false ∧
    ∃ u₁ u₂ : Url,
      (performReload
        { online := true, swSupported := true, registrations := none,
          cachesSupported := true, cacheKeys := none,
          location := { base := "https://app.example/", params := [] },
          now := 1000 }).navigatedTo = some u₁ ∧
      (performReload
        { online := true, swSupported := true, registrations := none,
          cachesSupported := true, cacheKeys := none,
          location := { base := "https://app.example/", params := [] },
          now := 1001 }).navigatedTo = some u₂ ∧
      u₁.getParam "sentinel_refresh" = some (natToString 1000) ∧
      u₂.getParam "sentinel_refresh" = some (natToString 1001) ∧
      u₁.getParam "sentinel_refresh" ≠ u₂.getParam "sentinel_refresh" :=
  performReload_online_best_effort
    { online := true, swSupported := true, registrations := none,
      cachesSupported := true, cacheKeys := none,
      location := { base := "https://app.example/", params := [] },
      now := 1000 }
    { online := true, swSupported := true, registrations := none,
      cachesSupported := true, cacheKeys := none,
      location := { base := "https://app.example/", params := [] },
      now := 1001 }
    rfl rfl (by decide)

/-- C5 counterexample: a check that successfully fetches and parses a
manifest whose version equals `currentVersion` leaves `remoteVersion` at
`none` instead of updating it to the observed value `"A"`. -/
theorem remoteVersion_not_always_updated :
    (checkForUpdate false true (FetchOutcome.ok (some "A"))
      (initialState (some "A"))).2.fetched = true ∧
    (checkForUpdate false true (FetchOutcome.ok (some "A"))
      (initialState (some "A"))).1.remoteVersion = none ∧
    (none : Option String) ≠ some "A" := by
  refine ⟨rfl, rfl, by simp⟩

/-- C5 amended: `remoteVersion` is updated exactly by the latch-firing check
— when the update-found block runs with observed version `v` it becomes
`some v`; every other check (same version, failed fetch, offline, or latch
already set) leaves it unchanged. -/
theorem remoteVersion_update_policy (cb onl : Bool) (oc : FetchOutcome)
    (s : DetectorState) :
    (checkForUpdate cb onl oc s).1.remoteVersion
      = (latchTrigger onl oc s).or s.remoteVersion := by
  unfold checkForUpdate latchTrigger
  cases onl with
  | false => simp
  | true =>
    cases oc with
    | fetchError => simp
    | notOk => simp
    | ok version =>
      cases version with
      | none => simp
      | some v =>
        by_cases hv : v ≠ "" ∧ v ≠ s.currentVersion
        · by_cases hl : s.updateFound = true
          · simp [hv, hl]
          · have hl' : s.updateFound = false := Bool.eq_false_iff.mpr hl
            simp [hv, hl']
        · simp [hv]

/-- C10 counterexample: in a session without the injected constant
(`currentVersion = "unknown"`), a first successful fetch whose manifest
carries the non-empty version value `"unknown"` does not set the latch: the
state is unchanged and the callback is not invoked. -/
theorem unknown_manifest_version_no_latch :
    ("unknown" : String) ≠ "" ∧
    (checkForUpdate true true (FetchOutcome.ok (some "unknown"))
      (initialState none)).1 = initialState none ∧
    (checkForUpdate true true (FetchOutcome.ok (some "unknown"))
      (initialState none)).2.callbackInvoked = none := by
  refine ⟨by decide, rfl, rfl⟩

/-- C10 amended: a session without the injected constant starts at
`currentVersion = "unknown"`, so its first successful check observing any
non-empty version other than the `"unknown"` sentinel sets the latch, flips
`hasUpdate` to true, records the version, and invokes the callback when
provided. -/
theorem unknown_session_first_check (cb : Bool) (v : String)
    (hv : v ≠ "") (hvu : v ≠ "unknown") :
    (checkForUpdate cb true (FetchOutcome.ok (some v))
      (initialState none)).1.updateFound = true ∧
    (checkForUpdate cb true (FetchOutcome.ok (some v))
      (initialState none)).1.hasUpdate = true ∧
    (checkForUpdate cb true (FetchOutcome.ok (some v))
      (initialState none)).1.remoteVersion = some v ∧
    (checkForUpdate cb true (FetchOutcome.ok (some v))
      (initialState none)).2.callbackInvoked
      = (if cb then some v else none) := by
  have hne : v ≠ (initialState none).currentVersion := hvu
  have hcheck : checkForUpdate cb true (FetchOutcome.ok (some v)) (initialState none)
      = ({ initialState none with
            updateFound := true, hasUpdate := true, remoteVersion := some v },
         { fetched := true
           callbackInvoked := if cb then some v else none }) := by
    unfold checkForUpdate
    rw [if_neg (by simp)]
    show (if v ≠ "" ∧ v ≠ (initialState none).currentVersion then _ else _) = _
    rw [if_pos ⟨hv, hne⟩, if_neg (by exact Bool.false_ne_true)]
  rw [hcheck]
  exact ⟨rfl, rfl, rfl, rfl⟩

/-- Witness for C10's amended claim at a concrete 12-character hex build id. -/
theorem unknown_session_first_check_witness :
    (checkForUpdate true true (FetchOutcome.ok (some "abc123def456"))
      (initialState none)).1.updateFound = true ∧
    (checkForUpdate true true (FetchOutcome.ok (some "abc123def456"))
      (initialState none)).1.hasUpdate = true ∧
    (checkForUpdate true true (FetchOutcome.ok (some "abc123def456"))
      (initialState none)).1.remoteVersion = some "abc123def456" ∧
    (checkForUpdate true true (FetchOutcome.ok (some "abc123def456"))
      (initialState none)).2.callbackInvoked
      = (if true then some "abc123def456" else none) :=
  unknown_session_first_check true "abc123def456" (by decide) (by decide)

end Sentinel
